import Mathlib

/-!
Shallow embedding of the phoenix_sdr_controller "Controller Agent" core
(`telemetry_listener.py`, `controller.py`, `waterfall_controller.py`).

Conventions of the embedding:
* Python floats are modelled as `ℚ`; Python's `float('inf')` (used only as the
  initial best score and the no-lock time) is modelled as `Option ℚ` with
  `none` standing for `+∞`.
* Python exceptions are modelled with `Except String`; a `try/except` block
  becomes a `match` on the `Except` value.
* Python dicts that are built and read by key are modelled as ordered
  association lists (`List (String × _)`), which also preserves the insertion
  order that `configparser` uses when serializing.
-/

/-- Split a list of characters on a separator, keeping empty segments.
Models Python `str.split(sep)` (which returns `['']` on the empty string;
the caller `_parse_channel_data` guards the empty-string case itself). -/
def splitChars (sep : Char) : List Char → List Char → List (List Char)
  | [], acc => [acc.reverse]
  | c :: t, acc =>
    if c = sep then acc.reverse :: splitChars sep t [] else splitChars sep t (c :: acc)

/-- `s.split(sep)` for a one-character separator. -/
def pySplit (s : String) (sep : Char) : List String :=
  (splitChars sep s.data []).map fun cs => ⟨cs⟩

/-- Models `data.split(',') if data else []` from `_parse_channel_data`. -/
def pyFields (data : String) : List String :=
  if data = "" then [] else pySplit data ','

/-- Numeric value of a digit string (most significant first). -/
def digitsToNat (cs : List Char) : ℕ :=
  cs.foldl (fun a c => a * 10 + (c.toNat - 48)) 0

/-- Models Python `float(s)` restricted to plain signed decimal literals
(`[+-]digits[.digits]`); other spellings Python accepts (exponents, `inf`,
`nan`, surrounding whitespace) do not occur in the telemetry wire format and
are treated as parse failures (`none` = `ValueError`). -/
def pyFloatLit (s : String) : Option ℚ :=
  let sc : ℚ × List Char :=
    match s.data with
    | '-' :: t => (-1, t)
    | '+' :: t => (1, t)
    | t => (1, t)
  match splitChars '.' sc.2 [] with
  | [ip] =>
    if ip ≠ [] ∧ ip.all (·.isDigit) then some (sc.1 * digitsToNat ip) else none
  | [ip, fp] =>
    if (ip ≠ [] ∨ fp ≠ []) ∧ ip.all (·.isDigit) ∧ fp.all (·.isDigit) then
      some (sc.1 * ((digitsToNat ip : ℚ) + (digitsToNat fp : ℚ) / (10 : ℚ) ^ fp.length))
    else none
  | _ => none

/-- Models the recurring pattern `float(x) if x else 0.0`:
an empty field is 0.0 without calling `float` at all. -/
def pyFloatOrZero (s : String) : Option ℚ :=
  if s = "" then some 0 else pyFloatLit s

/-- Models Python `int(s)` on signed decimal integer literals
(`int` raises on anything else, e.g. `"3.5"`). -/
def pyIntLit (s : String) : Option ℤ :=
  let sc : ℤ × List Char :=
    match s.data with
    | '-' :: t => (-1, t)
    | '+' :: t => (1, t)
    | t => (1, t)
  if sc.2 ≠ [] ∧ sc.2.all (·.isDigit) then some (sc.1 * digitsToNat sc.2) else none

/-- Models `int(x) if x else 0`. -/
def pyIntOrZero (s : String) : Option ℤ :=
  if s = "" then some 0 else pyIntLit s

/-- A value stored in a message's `parsed` dict (string, float or int field). -/
inductive TValue where
  | str (s : String)
  | num (q : ℚ)
  | int (n : ℤ)
deriving DecidableEq

/-- The CORR branch of `TelemetryListener._parse_channel_data` (lines 116-143).
Requires at least 15 fields; keys are inserted in source order, and the
`except (ValueError, IndexError): pass` means a conversion failure keeps the
keys already inserted and silently stops (so `parsed` can hold a prefix). -/
def parseCorr (fields : List String) : List (String × TValue) :=
  if fields.length ≥ 15 then
    let f := fun i => fields.getD i ""
    let a0 := [("time_str", TValue.str (f 0))]
    match pyFloatOrZero (f 1) with
    | none => a0
    | some v1 =>
    let a1 := a0 ++ [("timestamp_ms", TValue.num v1)]
    match pyIntOrZero (f 2) with
    | none => a1
    | some v2 =>
    let a2 := a1 ++ [("tick_num", TValue.int v2)] ++ [("expected", TValue.str (f 3))]
    match pyFloatOrZero (f 4) with
    | none => a2
    | some v4 =>
    let a4 := a2 ++ [("energy_peak", TValue.num v4)]
    match pyFloatOrZero (f 5) with
    | none => a4
    | some v5 =>
    let a5 := a4 ++ [("duration_ms", TValue.num v5)]
    match pyFloatOrZero (f 6) with
    | none => a5
    | some v6 =>
    let a6 := a5 ++ [("interval_ms", TValue.num v6)]
    match pyFloatOrZero (f 7) with
    | none => a6
    | some v7 =>
    let a7 := a6 ++ [("avg_interval_ms", TValue.num v7)]
    match pyFloatOrZero (f 8) with
    | none => a7
    | some v8 =>
    let a8 := a7 ++ [("noise_floor", TValue.num v8)]
    match pyFloatOrZero (f 9) with
    | none => a8
    | some v9 =>
    let a9 := a8 ++ [("corr_peak", TValue.num v9)]
    match pyFloatOrZero (f 10) with
    | none => a9
    | some v10 =>
    let a10 := a9 ++ [("corr_ratio", TValue.num v10)]
    match pyIntOrZero (f 11) with
    | none => a10
    | some v11 =>
    let a11 := a10 ++ [("chain_id", TValue.int v11)]
    match pyIntOrZero (f 12) with
    | none => a11
    | some v12 =>
    let a12 := a11 ++ [("chain_length", TValue.int v12)]
    match pyFloatOrZero (f 13) with
    | none => a12
    | some v13 =>
    let a13 := a12 ++ [("chain_start_ms", TValue.num v13)]
    match pyFloatOrZero (f 14) with
    | none => a13
    | some v14 =>
    a13 ++ [("cumulative_drift_ms", TValue.num v14)]
       ++ [("interval_error_ms", TValue.num |v6 - 1000|)]
  else []

/-- The MARK branch of `_parse_channel_data` (lines 165-178): at least 8 fields,
keys inserted in order, conversion failure keeps the prefix (`except: pass`). -/
def parseMark (fields : List String) : List (String × TValue) :=
  if fields.length ≥ 8 then
    let f := fun i => fields.getD i ""
    let a0 := [("time_str", TValue.str (f 0))]
    match pyFloatOrZero (f 1) with
    | none => a0
    | some v1 =>
    let a1 := a0 ++ [("timestamp_ms", TValue.num v1)]
    match pyIntOrZero (f 2) with
    | none => a1
    | some v2 =>
    let a2 := a1 ++ [("marker_num", TValue.int v2)]
    match pyFloatOrZero (f 3) with
    | none => a2
    | some v3 =>
    let a3 := a2 ++ [("peak_energy", TValue.num v3)]
    match pyFloatOrZero (f 4) with
    | none => a3
    | some v4 =>
    let a4 := a3 ++ [("duration_ms", TValue.num v4)]
    match pyFloatOrZero (f 5) with
    | none => a4
    | some v5 =>
    a4 ++ [("since_last_sec", TValue.num v5)] ++ [("confidence", TValue.str (f 6))]
  else []

/-- The SYNC branch of `_parse_channel_data` (lines 180-190). -/
def parseSync (fields : List String) : List (String × TValue) :=
  if fields.length ≥ 2 then
    let a0 := [("state", TValue.str (fields.getD 0 ""))]
    match pyFloatOrZero (fields.getD 1 "") with
    | none => a0
    | some v =>
      let a1 := a0 ++ [("confidence", TValue.num v)]
      if fields.length ≥ 3 then a1 ++ [("reason", TValue.str (fields.getD 2 ""))] else a1
  else []

/-- The TICK branch of `_parse_channel_data` (lines 145-150).  Unlike CORR/MARK/SYNC
this branch has no internal `try`, so `int(fields[1])` can raise to the caller. -/
def parseTick (fields : List String) : Except String (List (String × TValue)) :=
  let a0 := if fields.length ≥ 1 then [("tick_type", TValue.str (fields.getD 0 ""))] else []
  if fields.length ≥ 2 then
    match pyIntOrZero (fields.getD 1 "") with
    | none => Except.error "ValueError"
    | some v => Except.ok (a0 ++ [("sample_offset", TValue.int v)])
  else Except.ok a0

/-- The CHAN branch of `_parse_channel_data` (lines 152-159); also no internal
`try`, so each `float(...)` can raise. -/
def parseChan (fields : List String) : Except String (List (String × TValue)) :=
  if fields.length ≥ 1 then
    match pyFloatOrZero (fields.getD 0 "") with
    | none => Except.error "ValueError"
    | some v0 =>
      let a0 := [("carrier_db", TValue.num v0)]
      if fields.length ≥ 2 then
        match pyFloatOrZero (fields.getD 1 "") with
        | none => Except.error "ValueError"
        | some v1 =>
          let a1 := a0 ++ [("snr_db", TValue.num v1)]
          if fields.length ≥ 3 then
            match pyFloatOrZero (fields.getD 2 "") with
            | none => Except.error "ValueError"
            | some v2 => Except.ok (a1 ++ [("noise_db", TValue.num v2)])
          else Except.ok a1
      else Except.ok a0
  else Except.ok []

/-- `TelemetryListener._parse_channel_data` (lines 111-192): dispatch on the
channel tag; unknown channels yield an empty `parsed` dict. -/
def parse_channel_data (channel data : String) : Except String (List (String × TValue)) :=
  let fields := pyFields data
  if channel = "CORR" then Except.ok (parseCorr fields)
  else if channel = "TICK" then parseTick fields
  else if channel = "CHAN" then parseChan fields
  else if channel = "RESP" then Except.ok [("response", TValue.str data)]
  else if channel = "MARK" then Except.ok (parseMark fields)
  else if channel = "SYNC" then Except.ok (parseSync fields)
  else Except.ok []

/-- Models `bytes.decode('utf-8')` on the ASCII subset: any byte ≥ 0x80 is
treated as a decode failure.  (Real UTF-8 additionally accepts certain
multi-byte sequences; that only moves some inputs from the failing to the
succeeding branch and does not change the failure-handling structure under
verification.) -/
def decodeUtf8Ascii (bytes : List ℕ) : Option String :=
  if bytes.all (· < 128) then some ⟨bytes.map Char.ofNat⟩ else none

/-- Models Python `str.strip()`. -/
def pyStrip (s : String) : String :=
  ⟨((s.data.dropWhile (·.isWhitespace)).reverse.dropWhile (·.isWhitespace)).reverse⟩

/-- Helper for `text.split(',', 1)`. -/
def splitFirstAux (sep : Char) : List Char → List Char → String × Option String
  | [], acc => (⟨acc.reverse⟩, none)
  | c :: t, acc =>
    if c = sep then (⟨acc.reverse⟩, some ⟨t⟩) else splitFirstAux sep t (c :: acc)

/-- Models `text.split(sep, 1)`: the part before the first separator and,
when a separator occurs, the rest. -/
def pySplitFirst (s : String) (sep : Char) : String × Option String :=
  splitFirstAux sep s.data []

/-- `TelemetryMessage` from `telemetry_listener.py` (lines 26-31). -/
structure TelemetryMessage where
  channel : String
  timestamp : ℚ
  data : String
  parsed : List (String × TValue)
deriving DecidableEq

/-- The body of `TelemetryListener._parse_message` (lines 84-109) without its
outer `try/except`: decode, strip, split off the channel tag, dispatch to the
per-channel parser.  An `Except.error` models an exception escaping the body
(to be caught by the outer handler).  `now` models `time.time()`. -/
def parse_message_body (now : ℚ) (bytes : List ℕ) : Except String (Option TelemetryMessage) :=
  match decodeUtf8Ascii bytes with
  | none => Except.error "UnicodeDecodeError"
  | some raw =>
    let text := pyStrip raw
    if text = "" then Except.ok none
    else
      let ps := pySplitFirst text ','
      let channel := ps.1
      let csv := ps.2.getD ""
      match parse_channel_data channel csv with
      | Except.error e => Except.error e
      | Except.ok parsed => Except.ok (some ⟨channel, now, csv, parsed⟩)

/-- `TelemetryListener._parse_message` (lines 84-109): the outer
`except Exception: return None` turns any exception from the body into `None`. -/
def parse_message (now : ℚ) (bytes : List ℕ) : Option TelemetryMessage :=
  match parse_message_body now bytes with
  | Except.ok r => r
  | Except.error _ => none

/-- One entry of `TelemetryListener.sync_states` (appended in `_listen_loop`
lines 213-219): `(timestamp, state, confidence)`. -/
structure SyncSample where
  timestamp : ℚ
  state : String
  confidence : ℚ
deriving DecidableEq

/-- Result of `TelemetryListener.get_sync_metrics`; `time_to_lock = none`
models `float('inf')` (LOCKED never observed). -/
structure SyncMetrics where
  locked_pct : ℚ
  avg_confidence : ℚ
  state_changes : ℕ
  time_to_lock : Option ℚ
deriving DecidableEq

/-- Consecutive differences of a list (used for the per-sample dwell gaps and
the marker inter-event intervals). -/
def consecutiveGaps : List ℚ → List ℚ
  | [] => []
  | a :: t =>
    match t with
    | [] => []
    | b :: _ => (b - a) :: consecutiveGaps t

/-- Number of adjacent transitions in a list of states (the
`states[i] != states[i-1]` count of lines 359-362). -/
def countTransitions : List String → ℕ
  | [] => 0
  | a :: t =>
    match t with
    | [] => 0
    | b :: _ => (if a ≠ b then 1 else 0) + countTransitions t

/-- `TelemetryListener.get_sync_metrics` (lines 315-369).  Per-sample dwell is
the gap to the next sample; the final sample gets a fixed 0.1 s dwell
(line 349 `duration = 0.1`).  `locked_pct` is dwell-weighted; `time_to_lock`
is the first LOCKED sample's offset from the first sample. -/
def get_sync_metrics (states : List SyncSample) : SyncMetrics :=
  match states with
  | [] => ⟨0, 0, 0, none⟩
  | s0 :: _ =>
    let dwells := consecutiveGaps (states.map (·.timestamp)) ++ [1/10]
    let total_time := dwells.sum
    let locked_time := (((states.zip dwells).filter fun p => p.1.state = "LOCKED").map (·.2)).sum
    let locked_pct := if total_time > 0 then locked_time / total_time * 100 else 0
    let avg_confidence := (states.map (·.confidence)).sum / (states.length : ℚ)
    let state_changes := countTransitions (states.map (·.state))
    let time_to_lock := (states.find? fun s => s.state = "LOCKED").map (·.timestamp - s0.timestamp)
    ⟨locked_pct, avg_confidence, state_changes, time_to_lock⟩

/-- One entry of `TelemetryListener.marker_events` (appended in `_listen_loop`
lines 205-210); `duration_ms` stands for `e['parsed'].get('duration_ms', 0)`,
the only parsed key `get_marker_metrics` reads. -/
structure MarkerEvent where
  timestamp : ℚ
  duration_ms : ℚ
deriving DecidableEq

/-- Result of `TelemetryListener.get_marker_metrics`. -/
structure MarkerMetrics where
  count : ℕ
  avg_duration_ms : ℚ
  duration_variance : ℚ
  avg_interval_sec : ℚ
  interval_error_sec : ℚ
deriving DecidableEq

/-- `TelemetryListener.get_marker_metrics` (lines 260-303). -/
def get_marker_metrics (events : List MarkerEvent) : MarkerMetrics :=
  match events with
  | [] => ⟨0, 0, 0, 0, 60⟩
  | _ =>
    let count := events.length
    let durations := events.map (·.duration_ms)
    let avg_duration := durations.sum / (count : ℚ)
    let duration_var :=
      if count > 1 then (durations.map fun d => (d - avg_duration) ^ 2).sum / (count : ℚ) else 0
    let intervals := consecutiveGaps (events.map (·.timestamp))
    match intervals with
    | [] => ⟨count, avg_duration, duration_var, 0, 60⟩
    | _ =>
      let avg_interval := intervals.sum / (intervals.length : ℚ)
      ⟨count, avg_duration, duration_var, avg_interval, |avg_interval - 60|⟩

/-- Dict-style numeric read with default: `metrics.get(key, default)` where the
stored value is expected to be a float. -/
def getNum (m : List (String × TValue)) (key : String) (dflt : ℚ) : ℚ :=
  match List.lookup key m with
  | some (TValue.num q) => q
  | _ => dflt

/-- `metrics.get(key, default)` for an int-valued key. -/
def getInt (m : List (String × TValue)) (key : String) (dflt : ℤ) : ℤ :=
  match List.lookup key m with
  | some (TValue.int n) => n
  | _ => dflt

/-- The score formula of `ControllerAgent.objective_function` (lines 263-278)
on a non-empty correlation-metrics dict: interval error, drift, capped chain
bonus, correlation penalty. -/
def corrMetricsScore (metrics : List (String × TValue)) : ℚ :=
  let interval_error := getNum metrics "interval_error_ms" 1000
  let drift := |getNum metrics "cumulative_drift_ms" 0|
  let chain_length := getInt metrics "chain_length" 0
  let chain_bonus := min ((chain_length : ℚ) * (1/10)) 5
  let corr_ratio := getNum metrics "corr_ratio" 0
  let corr_penalty := max 0 ((1 - corr_ratio) * 2)
  interval_error + drift * (1/10) - chain_bonus + corr_penalty

/-- The tick/corr/all score as a function of the latest correlation metrics
(`objective_function`, lines 256-291): the empty dict (no CORR telemetry)
yields the fixed 1000 penalty via an early return. -/
def corrObjectiveScore (metrics : List (String × TValue)) : ℚ :=
  if metrics = [] then 1000 else corrMetricsScore metrics

/-- Python `int(x)` on a float: truncation toward zero. -/
def pyTrunc (q : ℚ) : ℤ :=
  if q ≥ 0 then ⌊q⌋ else ⌈q⌉

/-- The marker-mode score as a function of the collected marker events and the
elapsed collection time (`marker_objective_function`, lines 333-358): zero
markers yield the fixed 1000 penalty via an early return. -/
def markerObjectiveScore (events : List MarkerEvent) (elapsed : ℚ) : ℚ :=
  let metrics := get_marker_metrics events
  let count := metrics.count
  if count = 0 then 1000
  else
    let expected := pyTrunc (elapsed / 60) + 1
    let detection_penalty := ((expected : ℚ) - (count : ℚ)) * 100
    let interval_error := metrics.interval_error_sec * 10
    let duration_var := metrics.duration_variance / 100
    let duration_error := |metrics.avg_duration_ms - 800| / 10
    detection_penalty + interval_error + duration_var + duration_error

/-- The sync-mode score as a function of the final sync metrics
(`sync_objective_function`, lines 408-425).  `min(time_to_lock, 60)` with
`time_to_lock = inf` is 60. -/
def syncObjectiveScore (m : SyncMetrics) : ℚ :=
  let pct_penalty := 100 - m.locked_pct
  let stability_penalty := (m.state_changes : ℚ) * 2
  let lock_time_penalty := (match m.time_to_lock with | none => 60 | some t => min t 60) / 6
  let confidence_bonus := m.avg_confidence * 5
  pct_penalty + stability_penalty + lock_time_penalty - confidence_bonus

/-- The per-run optimization state mutated by the objective functions
(`eval_count`, `best_score`, `best_params` in `ControllerAgent`);
`best_score = none` models the initial `float('inf')`. -/
structure RunState where
  eval_count : ℕ
  best_score : Option ℚ
  best_params : List ℚ
deriving DecidableEq

/-- `score < self.best_score` with `best_score` possibly `float('inf')`. -/
def improves (score : ℚ) (best : Option ℚ) : Bool :=
  match best with
  | none => true
  | some b => decide (score < b)

/-- One tick/corr/all evaluation (`objective_function`, lines 247-291) as a
state transition.  Input: the run state and the correlation-metrics dict read
after the settle sleep.  Output: the new run state, the returned score, and
whether `save_to_ini` was invoked (persistence) during this evaluation.
The telemetry-absence branch returns 1000 *before* the best-tracking block. -/
def corrEvalStep (st : RunState) (params : List ℚ) (metrics : List (String × TValue)) :
    RunState × ℚ × Bool :=
  let st1 : RunState := { st with eval_count := st.eval_count + 1 }
  if metrics = [] then (st1, 1000, false)
  else
    let variance := corrMetricsScore metrics
    if improves variance st1.best_score then
      ({ st1 with best_score := some variance, best_params := params }, variance, true)
    else (st1, variance, false)

/-- One marker-mode evaluation (`marker_objective_function`, lines 299-369) as
a state transition over the collected events and elapsed wait time.  The
zero-marker branch returns 1000 *before* the best-tracking block. -/
def markerEvalStep (st : RunState) (params : List ℚ) (events : List MarkerEvent)
    (elapsed : ℚ) : RunState × ℚ × Bool :=
  let st1 : RunState := { st with eval_count := st.eval_count + 1 }
  if (get_marker_metrics events).count = 0 then (st1, 1000, false)
  else
    let score := markerObjectiveScore events elapsed
    if improves score st1.best_score then
      ({ st1 with best_score := some score, best_params := params }, score, true)
    else (st1, score, false)

/-- One sync-mode evaluation (`sync_objective_function`, lines 380-436):
the score always flows through the best-tracking block (no early return). -/
def syncEvalStep (st : RunState) (params : List ℚ) (states : List SyncSample) :
    RunState × ℚ × Bool :=
  let st1 : RunState := { st with eval_count := st.eval_count + 1 }
  let score := syncObjectiveScore (get_sync_metrics states)
  if improves score st1.best_score then
    ({ st1 with best_score := some score, best_params := params }, score, true)
  else (st1, score, false)

/-- `WaterfallController.get_param_names` (lines 413-439): the `if/elif/else`
chain sends every mode outside tick/corr/marker/sync to the final `else`
branch (labelled `'all'` in the source). -/
def get_param_names (mode : String) : List String :=
  if mode = "tick" then ["threshold", "adapt_down", "adapt_up", "min_duration"]
  else if mode = "corr" then ["confidence", "max_misses"]
  else if mode = "marker" then ["marker_threshold", "marker_adapt_rate", "marker_min_duration"]
  else if mode = "sync" then
    ["sync_weight_tick", "sync_weight_marker", "sync_weight_p_marker",
     "sync_weight_tick_hole", "sync_weight_combined",
     "sync_locked_threshold", "sync_min_retain", "sync_tentative_init",
     "sync_decay_normal", "sync_decay_recovering",
     "sync_tick_tolerance", "sync_marker_tolerance", "sync_p_marker_tolerance"]
  else
    ["threshold", "adapt_down", "adapt_up", "min_duration",
     "confidence", "max_misses",
     "marker_threshold", "marker_adapt_rate", "marker_min_duration",
     "sync_weight_tick", "sync_weight_marker", "sync_weight_p_marker",
     "sync_weight_tick_hole", "sync_weight_combined",
     "sync_locked_threshold", "sync_min_retain", "sync_tentative_init",
     "sync_decay_normal", "sync_decay_recovering",
     "sync_tick_tolerance", "sync_marker_tolerance", "sync_p_marker_tolerance"]

/-- `WaterfallController.PARAM_BOUNDS` (lines 68-98). -/
def PARAM_BOUNDS (name : String) : ℚ × ℚ :=
  if name = "threshold" then (1, 5)
  else if name = "adapt_down" then (9/10, 999/1000)
  else if name = "adapt_up" then (1/1000, 1/10)
  else if name = "min_duration" then (1, 10)
  else if name = "confidence" then (1/2, 19/20)
  else if name = "max_misses" then (2, 10)
  else if name = "marker_threshold" then (2, 5)
  else if name = "marker_adapt_rate" then (1/10000, 1/100)
  else if name = "marker_min_duration" then (300, 700)
  else if name = "sync_weight_tick" then (1/100, 1/5)
  else if name = "sync_weight_marker" then (1/10, 3/5)
  else if name = "sync_weight_p_marker" then (1/20, 3/10)
  else if name = "sync_weight_tick_hole" then (1/20, 2/5)
  else if name = "sync_weight_combined" then (1/5, 4/5)
  else if name = "sync_locked_threshold" then (1/2, 9/10)
  else if name = "sync_min_retain" then (1/100, 1/5)
  else if name = "sync_tentative_init" then (1/10, 1/2)
  else if name = "sync_decay_normal" then (99/100, 9999/10000)
  else if name = "sync_decay_recovering" then (9/10, 99/100)
  else if name = "sync_tick_tolerance" then (50, 200)
  else if name = "sync_marker_tolerance" then (200, 800)
  else (100, 400)

/-- `WaterfallController.get_bounds` (lines 351-411): same `if/elif/else`
structure; every branch lists the bounds of that mode's parameter names in
order, and the final `else` branch covers every other mode string. -/
def get_bounds (mode : String) : List (ℚ × ℚ) :=
  (get_param_names mode).map PARAM_BOUNDS

/-- Overwrite-or-append update of an ordered association list: the behaviour
of `d[k] = v` on a Python dict / of setting a key in a `configparser` section
(existing keys keep their position, new keys append at the end). -/
def updateAssoc {α : Type} (l : List (String × α)) (k : String) (v : α) :
    List (String × α) :=
  match l with
  | [] => [(k, v)]
  | (k1, v1) :: t => if k1 = k then (k, v) :: t else (k1, v1) :: updateAssoc t k v

/-- `dict(zip(names, values))`: later duplicates of a key overwrite earlier
ones, insertion order otherwise preserved. -/
def pyDict {α : Type} (names : List String) (values : List α) : List (String × α) :=
  ((names.zip values).foldl fun d p => updateAssoc d p.1 p.2) []

/-- One command sent by a `set_...` method of `WaterfallController`: the wire
command name and the value (string formatting of the value elided; the local
`*_params` mirror dataclasses are write-only caches and are likewise not part
of the observable behaviour modelled here). -/
structure SentCommand where
  cmd : String
  value : ℚ
deriving DecidableEq

/-- `WaterfallController.set_parameters` (lines 256-310): for each known
parameter name, in the fixed source order, if the dict holds it, send the
corresponding `SET_...` command; the boolean result is the conjunction of the
individual `_send` results (`False` for every send when no socket exists). -/
def set_parameters (connected : Bool) (params : List (String × ℚ)) :
    List SentCommand × Bool :=
  let step := fun (acc : List SentCommand × Bool) (p : String × String) =>
    match List.lookup p.1 params with
    | some v =>
      if connected then (acc.1 ++ [⟨p.2, v⟩], acc.2) else (acc.1, false)
    | none => acc
  let table : List (String × String) :=
    [("threshold", "SET_TICK_THRESHOLD"), ("adapt_down", "SET_TICK_ADAPT_DOWN"),
     ("adapt_up", "SET_TICK_ADAPT_UP"), ("min_duration", "SET_TICK_MIN_DURATION"),
     ("confidence", "SET_CORR_CONFIDENCE"), ("max_misses", "SET_CORR_MAX_MISSES"),
     ("marker_threshold", "SET_MARKER_THRESHOLD"),
     ("marker_adapt_rate", "SET_MARKER_ADAPT_RATE"),
     ("marker_min_duration", "SET_MARKER_MIN_DURATION"),
     ("sync_weight_tick", "SET_SYNC_WEIGHT_TICK"),
     ("sync_weight_marker", "SET_SYNC_WEIGHT_MARKER"),
     ("sync_weight_p_marker", "SET_SYNC_WEIGHT_P_MARKER"),
     ("sync_weight_tick_hole", "SET_SYNC_WEIGHT_TICK_HOLE"),
     ("sync_weight_combined", "SET_SYNC_WEIGHT_COMBINED"),
     ("sync_locked_threshold", "SET_SYNC_LOCKED_THRESHOLD"),
     ("sync_min_retain", "SET_SYNC_MIN_RETAIN"),
     ("sync_tentative_init", "SET_SYNC_TENTATIVE_INIT"),
     ("sync_decay_normal", "SET_SYNC_DECAY_NORMAL"),
     ("sync_decay_recovering", "SET_SYNC_DECAY_RECOVERING"),
     ("sync_tick_tolerance", "SET_SYNC_TICK_TOLERANCE"),
     ("sync_marker_tolerance", "SET_SYNC_MARKER_TOLERANCE"),
     ("sync_p_marker_tolerance", "SET_SYNC_P_MARKER_TOLERANCE")]
  table.foldl step ([], true)

/-- `WaterfallController.set_parameters_from_array` (lines 312-349): build the
mode's name list (same `if/elif/else` chain as `get_param_names`, the final
`else` again covering every other mode string), zip it with the value vector
into a dict, and delegate to `set_parameters`. -/
def set_parameters_from_array (connected : Bool) (values : List ℚ) (mode : String) :
    List SentCommand × Bool :=
  set_parameters connected (pyDict (get_param_names mode) values)

/-- `f"{v:.6f}"` followed by `float(...)` on read-back: rounding to 6 decimal
places.  (Python's formatting rounds the double to the nearest 6-decimal
value; exact ties essentially cannot occur for binary doubles, so the
tie-breaking direction is immaterial to the properties proved here.) -/
def round6 (q : ℚ) : ℚ :=
  (round (q * 1000000) : ℚ) / 1000000

/-- `f"{v:.2f}"` read back: rounding to 2 decimal places. -/
def round2 (q : ℚ) : ℚ :=
  (round (q * 100) : ℚ) / 100

/-- The persisted state of one INI file written by `ControllerAgent._write_ini`
(lines 130-227).  Sections are ordered name ↦ ordered key/value lists (values
stored at their written decimal precision); the `optimization_meta` keys are
split out into named fields plus the ordered per-mode `<mode>_best_score`
association list.  `configparser` serialization is a deterministic injective
function of this state, so state equality coincides with byte-identical files
and state inequality (in a field the writer emits verbatim, such as
`last_run`) with differing files. -/
structure IniRecord where
  sections : List (String × List (String × ℚ))
  last_mode : String
  last_score : ℚ
  last_run : String
  best_scores : List (String × ℚ)
deriving DecidableEq

/-- A freshly constructed `configparser.ConfigParser()` (no file read). -/
def emptyRecord : IniRecord :=
  { sections := [], last_mode := "", last_score := 0, last_run := "", best_scores := [] }

/-- The `[tick_detector]` key updates of `_write_ini` (lines 150-160). -/
def updTickSection (sec : List (String × ℚ)) (pd : List (String × ℚ)) :
    List (String × ℚ) :=
  let s := sec
  let s := match List.lookup "threshold" pd with
    | some v => updateAssoc s "threshold_multiplier" (round6 v) | none => s
  let s := match List.lookup "adapt_down" pd with
    | some v => updateAssoc s "adapt_alpha_down" (round6 v) | none => s
  let s := match List.lookup "adapt_up" pd with
    | some v => updateAssoc s "adapt_alpha_up" (round6 v) | none => s
  match List.lookup "min_duration" pd with
    | some v => updateAssoc s "min_duration_ms" (round2 v) | none => s

/-- The `[tick_correlator]` key updates of `_write_ini` (lines 162-168);
`max_consecutive_misses` goes through `int(...)`. -/
def updCorrSection (sec : List (String × ℚ)) (pd : List (String × ℚ)) :
    List (String × ℚ) :=
  let s := sec
  let s := match List.lookup "confidence" pd with
    | some v => updateAssoc s "epoch_confidence_threshold" (round6 v) | none => s
  match List.lookup "max_misses" pd with
    | some v => updateAssoc s "max_consecutive_misses" ((pyTrunc v : ℚ)) | none => s

/-- The `[marker_detector]` key updates of `_write_ini` (lines 170-178). -/
def updMarkerSection (sec : List (String × ℚ)) (pd : List (String × ℚ)) :
    List (String × ℚ) :=
  let s := sec
  let s := match List.lookup "marker_threshold" pd with
    | some v => updateAssoc s "threshold_multiplier" (round6 v) | none => s
  let s := match List.lookup "marker_adapt_rate" pd with
    | some v => updateAssoc s "noise_adapt_rate" (round6 v) | none => s
  match List.lookup "marker_min_duration" pd with
    | some v => updateAssoc s "min_duration_ms" (round2 v) | none => s

/-- The `[sync_detector]` key updates of `_write_ini` (lines 180-212). -/
def updSyncSection (sec : List (String × ℚ)) (pd : List (String × ℚ)) :
    List (String × ℚ) :=
  let s := sec
  let s := match List.lookup "sync_weight_tick" pd with
    | some v => updateAssoc s "weight_tick" (round6 v) | none => s
  let s := match List.lookup "sync_weight_marker" pd with
    | some v => updateAssoc s "weight_marker" (round6 v) | none => s
  let s := match List.lookup "sync_weight_p_marker" pd with
    | some v => updateAssoc s "weight_p_marker" (round6 v) | none => s
  let s := match List.lookup "sync_weight_tick_hole" pd with
    | some v => updateAssoc s "weight_tick_hole" (round6 v) | none => s
  let s := match List.lookup "sync_weight_combined" pd with
    | some v => updateAssoc s "weight_combined_hole_marker" (round6 v) | none => s
  let s := match List.lookup "sync_locked_threshold" pd with
    | some v => updateAssoc s "confidence_locked_threshold" (round6 v) | none => s
  let s := match List.lookup "sync_min_retain" pd with
    | some v => updateAssoc s "confidence_min_retain" (round6 v) | none => s
  let s := match List.lookup "sync_tentative_init" pd with
    | some v => updateAssoc s "confidence_tentative_init" (round6 v) | none => s
  let s := match List.lookup "sync_decay_normal" pd with
    | some v => updateAssoc s "confidence_decay_normal" (round6 v) | none => s
  let s := match List.lookup "sync_decay_recovering" pd with
    | some v => updateAssoc s "confidence_decay_recovering" (round6 v) | none => s
  let s := match List.lookup "sync_tick_tolerance" pd with
    | some v => updateAssoc s "tick_phase_tolerance_ms" (round2 v) | none => s
  let s := match List.lookup "sync_marker_tolerance" pd with
    | some v => updateAssoc s "marker_tolerance_ms" (round2 v) | none => s
  match List.lookup "sync_p_marker_tolerance" pd with
    | some v => updateAssoc s "p_marker_tolerance_ms" (round2 v) | none => s

/-- `ControllerAgent._write_ini` (lines 130-227) as a state transformer on one
INI file: read the existing file if present (else start empty), update the
mode's sections (note the four independent `if mode == X or mode == 'all'`
tests; an absent section is created even when no parameter of that family is
in the dict), then set `last_mode`, `last_score`, `last_run` (the wall-clock
string `now`) and the per-mode `<mode>_best_score` key.  -/
def write_ini (r : Option IniRecord) (params : List ℚ) (names : List String)
    (mode : String) (score : ℚ) (now : String) : IniRecord :=
  let base := r.getD emptyRecord
  let pd := pyDict names params
  let secs := base.sections
  let secs := if mode = "tick" ∨ mode = "all" then
    updateAssoc secs "tick_detector" (updTickSection ((List.lookup "tick_detector" secs).getD []) pd)
    else secs
  let secs := if mode = "corr" ∨ mode = "all" then
    updateAssoc secs "tick_correlator" (updCorrSection ((List.lookup "tick_correlator" secs).getD []) pd)
    else secs
  let secs := if mode = "marker" ∨ mode = "all" then
    updateAssoc secs "marker_detector" (updMarkerSection ((List.lookup "marker_detector" secs).getD []) pd)
    else secs
  let secs := if mode = "sync" ∨ mode = "all" then
    updateAssoc secs "sync_detector" (updSyncSection ((List.lookup "sync_detector" secs).getD []) pd)
    else secs
  { sections := secs
    last_mode := mode
    last_score := round6 score
    last_run := now
    best_scores := updateAssoc base.best_scores (mode ++ "_best_score") (round6 score) }

/-- `ControllerAgent._get_existing_score` (lines 104-128): `none` if the file
does not exist; else the `<mode>_best_score` meta key; else, when
`last_mode == mode`, fall back to `last_score`.  (The `ValueError` guards
cannot fire on records produced by `_write_ini`, which always writes
well-formed numbers.) -/
def get_existing_score (r : Option IniRecord) (mode : String) : Option ℚ :=
  match r with
  | none => none
  | some rec =>
    match List.lookup (mode ++ "_best_score") rec.best_scores with
    | some s => some s
    | none => if rec.last_mode = mode then some rec.last_score else none

/-- `ControllerAgent.save_to_ini` (lines 85-102) restricted to the
all-time-best file `optimized_params.ini` (the `last_run.ini` write touches a
different file): write only when no score is recorded for this mode or the
new score is strictly lower. -/
def save_to_ini (r : Option IniRecord) (params : List ℚ) (names : List String)
    (mode : String) (score : ℚ) (now : String) : Option IniRecord :=
  match get_existing_score r mode with
  | none => some (write_ini r params names mode score now)
  | some existing =>
    if score < existing then some (write_ini r params names mode score now) else r

/-- The arguments of one `save_to_ini` call (`now` models the wall-clock
timestamp `time.strftime(...)` read during the call). -/
structure CallArgs where
  params : List ℚ
  names : List String
  mode : String
  score : ℚ
  now : String

/-- One `save_to_ini` call applied to the all-time-best file state. -/
def applyCall (r : Option IniRecord) (c : CallArgs) : Option IniRecord :=
  save_to_ini r c.params c.names c.mode c.score c.now

/-- The all-time-best file state after a sequence of `save_to_ini` calls,
starting from no file. -/
def runCalls (calls : List CallArgs) : Option IniRecord :=
  calls.foldl applyCall none

/-- The `<mode>_best_score` value stored in the all-time-best file, if any. -/
def storedBestScore (r : Option IniRecord) (mode : String) : Option ℚ :=
  r.bind fun rec => List.lookup (mode ++ "_best_score") rec.best_scores

/-- The record returned by `ControllerAgent.optimize` on normal completion
(lines 523-531); `score = none` models `float('inf')` (no evaluation ever
improved on the initial best). -/
structure OptResult where
  success : Bool
  params : List ℚ
  score : Option ℚ
  iterations : ℕ
deriving DecidableEq

/-- The completion path of `ControllerAgent.optimize` (lines 482-531): the
minimizer call sits in a `try` whose only handler is `finally:
self.optimization_running = False`.  `outcome` is how `scipy.optimize.minimize`
ended: `Except.ok success` for a normal return, `Except.error e` for a raised
exception.  Returns (running flag afterwards, the parameter application to the
remote pipeline made after the minimizer (line 521), the value `optimize`
yields to its caller - `Except.error` meaning the exception propagates and no
result record is returned). -/
def optimizeFinish (finalRun : RunState) (mode : String) (outcome : Except String Bool) :
    Bool × Option (List ℚ × String) × Except String OptResult :=
  match outcome with
  | Except.error e => (false, none, Except.error e)
  | Except.ok success =>
    (false, some (finalRun.best_params, mode),
     Except.ok ⟨success, finalRun.best_params, finalRun.best_score, finalRun.eval_count⟩)

/-- Models `with open(filepath, 'w') as f: config.write(f)` at the end of
`_write_ini` (lines 226-227): opening with mode `'w'` truncates the file
immediately, then the serialized chunks are written in order.
`failAt = some k` models an exception raised after `k` chunks were written;
the second component reports whether the write completed. -/
def writeFileW (prev : String) (chunks : List String) (failAt : Option ℕ) :
    String × Bool :=
  match failAt with
  | none => (String.join chunks, true)
  | some k => (String.join (chunks.take k), false)

/-- The sync-sample sequence of the spec's testable property:
`[(t=0, SEARCHING, 0.1), (t=10, LOCKED, 0.8), (t=40, LOCKED, 0.75)]`. -/
def c1samples : List SyncSample :=
  [⟨0, "SEARCHING", 1/10⟩, ⟨10, "LOCKED", 4/5⟩, ⟨40, "LOCKED", 3/4⟩]

/-- A well-formed 15-field CORR payload whose measured interval is 10000 ms
(all other numeric fields empty, which the source parses as 0.0). -/
def corrFarSample : List String :=
  ["", "", "", "", "", "", "10000", "", "", "", "", "", "", "", ""]

/-- The parsed dict of `corrFarSample`. -/
def corrFarParsed : List (String × TValue) :=
  [("time_str", TValue.str ""), ("timestamp_ms", TValue.num 0),
   ("tick_num", TValue.int 0), ("expected", TValue.str ""),
   ("energy_peak", TValue.num 0), ("duration_ms", TValue.num 0),
   ("interval_ms", TValue.num 10000), ("avg_interval_ms", TValue.num 0),
   ("noise_floor", TValue.num 0), ("corr_peak", TValue.num 0),
   ("corr_ratio", TValue.num 0), ("chain_id", TValue.int 0),
   ("chain_length", TValue.int 0), ("chain_start_ms", TValue.num 0),
   ("cumulative_drift_ms", TValue.num 0), ("interval_error_ms", TValue.num 9000)]

/-- `<mode>_best_score` lookup by raw meta key. -/
def bestKeyLookup (r : Option IniRecord) (k : String) : Option ℚ :=
  r.bind fun rec => List.lookup k rec.best_scores

/-- Every score stored under a best-score meta key is a fixed point of the
6-decimal rounding (it was written through `f"{score:.6f}"`). -/
def RoundedBest (r : Option IniRecord) : Prop :=
  ∀ k s, bestKeyLookup r k = some s → round6 s = s

/-- A score that strictly rounds up at the sixth decimal place:
0.9999996 is stored as 1.000000. -/
def roundUpScore : ℚ := 9999996/10000000

/-- First `save_to_ini` call of the C6 scenario (no prior record). -/
def c6rec1 : Option IniRecord :=
  save_to_ini none [1] ["threshold"] "tick" roundUpScore "t1"

/-- Second, identically-argumented `save_to_ini` call, made at a later
wall-clock second. -/
def c6rec2 : Option IniRecord :=
  save_to_ini c6rec1 [1] ["threshold"] "tick" roundUpScore "t2"

/-- A 15-field CORR payload whose interval field (index 6) parses as 500 but
whose corr_ratio field (index 10) is unparseable. -/
def corrRatioBadSample : List String :=
  ["", "", "", "", "", "", "500", "", "", "", "xyz", "", "", "", ""]

/-- The bytes of the datagram `TICK,x,zz`, whose sample-offset field makes
`int(fields[1])` raise inside `_parse_channel_data`. -/
def tickBadDatagram : List ℕ :=
  ("TICK,x,zz".data).map Char.toNat

/-! ### Helper lemmas about association-list update -/

theorem lookup_updateAssoc_self {α : Type} (l : List (String × α)) (k : String) (v : α) :
    List.lookup k (updateAssoc l k v) = some v := by
  induction l with
  | nil => simp [updateAssoc, List.lookup]
  | cons p t ih =>
    obtain ⟨k1, v1⟩ := p
    by_cases h : k1 = k
    · simp [updateAssoc, h, List.lookup]
    · have hb : (k == k1) = false := beq_eq_false_iff_ne.mpr (fun he => h he.symm)
      simp [updateAssoc, h, List.lookup, hb, ih]

theorem lookup_updateAssoc_ne {α : Type} (l : List (String × α)) (k : String) (v : α)
    (k1 : String) (h : k1 ≠ k) :
    List.lookup k1 (updateAssoc l k v) = List.lookup k1 l := by
  have hb : (k1 == k) = false := beq_eq_false_iff_ne.mpr h
  induction l with
  | nil => simp [updateAssoc, List.lookup, hb]
  | cons p t ih =>
    obtain ⟨k2, v2⟩ := p
    by_cases h2 : k2 = k
    · subst h2
      simp [updateAssoc, List.lookup, hb]
    · simp [updateAssoc, h2, List.lookup, ih]

theorem lookup_updateAssoc_cases {α : Type} (l : List (String × α)) (k : String) (v : α)
    (k1 : String) (s : α) (h : List.lookup k1 (updateAssoc l k v) = some s) :
    (k1 = k ∧ s = v) ∨ List.lookup k1 l = some s := by
  by_cases hk : k1 = k
  · subst hk
    rw [lookup_updateAssoc_self] at h
    exact Or.inl ⟨rfl, (Option.some_inj.mp h).symm⟩
  · rw [lookup_updateAssoc_ne _ _ _ _ hk] at h
    exact Or.inr h

/-- C1: on the spec's three-sample sequence, `get_sync_metrics` does not give
`lockedPct = 75` - with the dwell rule the claim itself states (gap to next
sample, fixed 0.1 s dwell for the final sample), the final LOCKED sample's
0.1 s dwell enters both the locked and the total time, giving
30.1/40.1 ≈ 75.06 %, not 30/40 = 75 %. -/
theorem c1_sync_metrics_counterexample :
    ¬((get_sync_metrics c1samples).locked_pct = 75
      ∧ (get_sync_metrics c1samples).state_changes = 1
      ∧ (get_sync_metrics c1samples).time_to_lock = some 10) := by
  have h : get_sync_metrics c1samples = ⟨30100/401, 11/20, 1, some 10⟩ := by
    norm_num +decide [c1samples, get_sync_metrics, consecutiveGaps, countTransitions,
      List.zip, List.zipWith, List.filter, List.find?, SyncMetrics.mk.injEq]
  rw [h]
  norm_num

/-- C1 amended: on the sample sequence `[(0, SEARCHING, 0.1), (10, LOCKED, 0.8),
(40, LOCKED, 0.75)]` the sync metrics computed by `get_sync_metrics` are
`lockedPct = 30100/401` (= 30.1/40.1 × 100 ≈ 75.06, not 75.0),
`stateChanges = 1`, `timeToLock = 10` (and `avgConfidence = 0.55`). -/
theorem c1_sync_metrics_amended :
    get_sync_metrics c1samples = ⟨30100/401, 11/20, 1, some 10⟩ := by
  norm_num +decide [c1samples, get_sync_metrics, consecutiveGaps, countTransitions,
    List.zip, List.zipWith, List.filter, List.find?, SyncMetrics.mk.injEq]

/-- C2: the fixed 1000 telemetry-absence penalty of the tick/corr/all mode is
not strictly greater than every score computed from a real CORR sample: the
well-formed sample `corrFarSample` (measured interval 10000 ms) parses and
scores 9002 > 1000. -/
theorem c2_penalty_not_maximal_counterexample :
    corrObjectiveScore [] = 1000
    ∧ parseCorr corrFarSample ≠ []
    ∧ corrObjectiveScore (parseCorr corrFarSample) = 9002
    ∧ ¬(corrObjectiveScore (parseCorr corrFarSample) < corrObjectiveScore []) := by
  have hp : parseCorr corrFarSample = corrFarParsed := by
    have hv : pyFloatLit "10000" = some 10000 := by
      norm_num +decide [pyFloatLit, splitChars, digitsToNat,
        show Char.toNat (Char.ofNat 49) = 49 from rfl]
    norm_num +decide [parseCorr, corrFarSample, corrFarParsed, pyFloatOrZero, pyIntOrZero, hv]
  have hs : corrObjectiveScore corrFarParsed = 9002 := by
    have h1 : List.lookup "interval_error_ms" corrFarParsed = some (TValue.num 9000) := by decide
    have h2 : List.lookup "cumulative_drift_ms" corrFarParsed = some (TValue.num 0) := by decide
    have h3 : List.lookup "chain_length" corrFarParsed = some (TValue.int 0) := by decide
    have h4 : List.lookup "corr_ratio" corrFarParsed = some (TValue.num 0) := by decide
    have hne : corrFarParsed ≠ [] := by decide
    rw [corrObjectiveScore, if_neg hne, corrMetricsScore]
    rw [getNum, getNum, getNum, getInt, h1, h2, h3, h4]
    norm_num
  refine ⟨rfl, ?_, ?_, ?_⟩
  · rw [hp]; decide
  · rw [hp, hs]
  · rw [hp, hs]
    norm_num [corrObjectiveScore]

/-- C2 amended: an evaluation that received zero telemetry of its mode's class
returns a fixed score - 1000 for tick/corr/all, 1000 for marker, and 110 for
sync (the sync score formula applied to empty metrics; sync has no separate
penalty constant) - but these zero-telemetry scores are not strict upper
bounds on the scores of evaluations with real samples. -/
theorem c2_zero_telemetry_scores (elapsed : ℚ) :
    corrObjectiveScore [] = 1000
    ∧ markerObjectiveScore [] elapsed = 1000
    ∧ syncObjectiveScore (get_sync_metrics []) = 110 := by
  refine ⟨rfl, rfl, ?_⟩
  norm_num [syncObjectiveScore, get_sync_metrics]

/-- C4: a `_write_ini` write that fails after one serialized chunk leaves the
file holding that chunk rather than the previous content - the write is not
all-or-nothing from the caller's perspective. -/
theorem c4_partial_write_counterexample :
    writeFileW "old" ["a", "b"] (some 1) = ("a", false) ∧ "a" ≠ "old" := by
  exact ⟨rfl, by decide⟩

/-- C4 amended: because `open(filepath, 'w')` truncates the file before
anything is written, the result of a write never depends on the previous
content, and a write that raises after `k` serialized chunks leaves the file
holding exactly those `k` chunks (an incomplete write, reported as such). -/
theorem c4_write_truncates_amended (prev prev2 : String) (chunks : List String)
    (failAt : Option ℕ) (k : ℕ) :
    writeFileW prev chunks failAt = writeFileW prev2 chunks failAt
    ∧ (writeFileW prev chunks (some k)).1 = String.join (chunks.take k)
    ∧ (writeFileW prev chunks (some k)).2 = false := by
  refine ⟨?_, rfl, rfl⟩
  cases failAt <;> rfl

/-- C8: when the black-box minimizer raises, `optimize` does not apply the
best parameters back to the pipeline (no application is issued) and returns
no result record - the exception propagates past the `try/finally`, which
only clears the running flag. -/
theorem c8_exception_counterexample :
    (optimizeFinish ⟨3, some 2, [1]⟩ "tick" (Except.error "RuntimeError")).2.1 = none
    ∧ (optimizeFinish ⟨3, some 2, [1]⟩ "tick" (Except.error "RuntimeError")).2.2
        = Except.error "RuntimeError" := by
  exact ⟨rfl, rfl⟩

/-- C8 amended: on a normal minimizer return, `optimize` clears the running
flag, applies the best parameters found back to the remote pipeline, and
returns `{success, bestParams, bestScore, evaluationCount}`; if the minimizer
raises, only the running flag is cleared (the `finally` block) - no parameter
application is made, no record is returned, and the exception propagates. -/
theorem c8_optimize_completion_amended (r : RunState) (mode : String) (b : Bool) (e : String) :
    optimizeFinish r mode (Except.ok b)
      = (false, some (r.best_params, mode),
         Except.ok ⟨b, r.best_params, r.best_score, r.eval_count⟩)
    ∧ optimizeFinish r mode (Except.error e) = (false, none, Except.error e) := by
  exact ⟨rfl, rfl⟩

/-- C3: an evaluation whose score is the telemetry-absence penalty does not
update the best score / best parameters and does not persist, even when that
penalty improves on the run's current best (here: first evaluation,
`best_score = inf`, empty CORR metrics; 1000 < inf yet nothing is updated) -
the penalty is returned before the best-tracking block. -/
theorem c3_penalty_skips_best_counterexample :
    corrEvalStep ⟨0, none, []⟩ [1] [] = (⟨1, none, []⟩, 1000, false)
    ∧ improves 1000 none = true := by
  exact ⟨rfl, rfl⟩

/-- C3 amended: in every mode, a computed (non-early-return) score updates the
best score / best parameters and persists exactly when it is strictly lower
than the run's best; but the telemetry-absence branches of the tick/corr/all
and marker modes return the fixed 1000 penalty *before* best-tracking, so
such an evaluation never updates or persists anything (sync mode has no such
branch).  Stated as equations on the evaluation-step transitions. -/
theorem c3_best_tracking_amended (st : RunState) (params : List ℚ)
    (metrics : List (String × TValue)) (events : List MarkerEvent) (elapsed : ℚ)
    (states : List SyncSample) :
    ((corrEvalStep st params metrics).2.2
      = (if metrics = [] then false
         else improves (corrMetricsScore metrics) st.best_score))
    ∧ ((corrEvalStep st params metrics).1.best_score
      = (if (corrEvalStep st params metrics).2.2 then some ((corrEvalStep st params metrics).2.1)
         else st.best_score))
    ∧ ((corrEvalStep st params metrics).1.best_params
      = (if (corrEvalStep st params metrics).2.2 then params else st.best_params))
    ∧ (corrEvalStep st params []).2.1 = 1000
    ∧ (corrEvalStep st params []).2.2 = false
    ∧ ((markerEvalStep st params events elapsed).2.2
      = (if (get_marker_metrics events).count = 0 then false
         else improves (markerObjectiveScore events elapsed) st.best_score))
    ∧ ((markerEvalStep st params events elapsed).1.best_score
      = (if (markerEvalStep st params events elapsed).2.2
         then some ((markerEvalStep st params events elapsed).2.1) else st.best_score))
    ∧ ((markerEvalStep st params events elapsed).1.best_params
      = (if (markerEvalStep st params events elapsed).2.2 then params else st.best_params))
    ∧ (markerEvalStep st params [] elapsed).2.1 = 1000
    ∧ (markerEvalStep st params [] elapsed).2.2 = false
    ∧ ((syncEvalStep st params states).2.2
      = improves (syncObjectiveScore (get_sync_metrics states)) st.best_score)
    ∧ ((syncEvalStep st params states).1.best_score
      = (if (syncEvalStep st params states).2.2 then some ((syncEvalStep st params states).2.1)
         else st.best_score))
    ∧ ((syncEvalStep st params states).1.best_params
      = (if (syncEvalStep st params states).2.2 then params else st.best_params)) := by
  refine ⟨?_, ?_, ?_, rfl, rfl, ?_, ?_, ?_, ?_, ?_, ?_, ?_, ?_⟩
  · by_cases hm : metrics = [] <;>
      by_cases hi : improves (corrMetricsScore metrics) st.best_score <;>
        simp [corrEvalStep, hm, hi]
  · by_cases hm : metrics = [] <;>
      by_cases hi : improves (corrMetricsScore metrics) st.best_score <;>
        simp [corrEvalStep, hm, hi]
  · by_cases hm : metrics = [] <;>
      by_cases hi : improves (corrMetricsScore metrics) st.best_score <;>
        simp [corrEvalStep, hm, hi]
  · by_cases hm : (get_marker_metrics events).count = 0 <;>
      by_cases hi : improves (markerObjectiveScore events elapsed) st.best_score <;>
        simp [markerEvalStep, hm, hi]
  · by_cases hm : (get_marker_metrics events).count = 0 <;>
      by_cases hi : improves (markerObjectiveScore events elapsed) st.best_score <;>
        simp [markerEvalStep, hm, hi]
  · by_cases hm : (get_marker_metrics events).count = 0 <;>
      by_cases hi : improves (markerObjectiveScore events elapsed) st.best_score <;>
        simp [markerEvalStep, hm, hi]
  · simp [markerEvalStep, get_marker_metrics]
  · simp [markerEvalStep, get_marker_metrics]
  · by_cases hi : improves (syncObjectiveScore (get_sync_metrics states)) st.best_score <;>
      simp [syncEvalStep, hi]
  · by_cases hi : improves (syncObjectiveScore (get_sync_metrics states)) st.best_score <;>
      simp [syncEvalStep, hi]
  · by_cases hi : improves (syncObjectiveScore (get_sync_metrics states)) st.best_score <;>
      simp [syncEvalStep, hi]

/-- C7: a CORR datagram with 15 fields and a parseable interval field (500)
need not carry `interval_error_ms`: an unparseable later field (corr_ratio)
aborts the parse after `interval_ms` was stored but before the derived
`interval_error_ms` is computed. -/
theorem c7_interval_error_counterexample :
    corrRatioBadSample.length ≥ 15
    ∧ pyFloatOrZero (corrRatioBadSample.getD 6 "") = some 500
    ∧ List.lookup "interval_ms" (parseCorr corrRatioBadSample) = some (TValue.num 500)
    ∧ List.lookup "interval_error_ms" (parseCorr corrRatioBadSample) = none := by
  have hv : pyFloatLit "500" = some 500 := by
    norm_num +decide [pyFloatLit, splitChars, digitsToNat,
      show Char.toNat (Char.ofNat 53) = 53 from rfl]
  have hp : parseCorr corrRatioBadSample =
      [("time_str", TValue.str ""), ("timestamp_ms", TValue.num 0),
       ("tick_num", TValue.int 0), ("expected", TValue.str ""),
       ("energy_peak", TValue.num 0), ("duration_ms", TValue.num 0),
       ("interval_ms", TValue.num 500), ("avg_interval_ms", TValue.num 0),
       ("noise_floor", TValue.num 0), ("corr_peak", TValue.num 0)] := by
    norm_num +decide [parseCorr, corrRatioBadSample, pyFloatOrZero, pyIntOrZero, hv,
      show pyFloatLit "xyz" = none from by decide]
  refine ⟨by decide, ?_, ?_, ?_⟩
  · show pyFloatOrZero "500" = some 500
    rw [pyFloatOrZero, if_neg (by decide : ¬("500" : String) = ""), hv]
  · rw [hp]; rfl
  · rw [hp]; rfl

/-- C7 amended: for every CORR field list with at least 15 fields in which
*all* numeric fields (indices 1-14) parse, the parsed dict carries
`interval_ms` and the derived `interval_error_ms = |interval_ms - 1000|`.
(The claim's hypothesis - a parseable interval field alone - is not enough;
the parse must get past every later numeric field too.) -/
theorem c7_interval_error_amended (fields : List String)
    (v1 v4 v5 v6 v7 v8 v9 v10 v13 v14 : ℚ) (v2 v11 v12 : ℤ)
    (hlen : fields.length ≥ 15)
    (h1 : pyFloatOrZero (fields.getD 1 "") = some v1)
    (h2 : pyIntOrZero (fields.getD 2 "") = some v2)
    (h4 : pyFloatOrZero (fields.getD 4 "") = some v4)
    (h5 : pyFloatOrZero (fields.getD 5 "") = some v5)
    (h6 : pyFloatOrZero (fields.getD 6 "") = some v6)
    (h7 : pyFloatOrZero (fields.getD 7 "") = some v7)
    (h8 : pyFloatOrZero (fields.getD 8 "") = some v8)
    (h9 : pyFloatOrZero (fields.getD 9 "") = some v9)
    (h10 : pyFloatOrZero (fields.getD 10 "") = some v10)
    (h11 : pyIntOrZero (fields.getD 11 "") = some v11)
    (h12 : pyIntOrZero (fields.getD 12 "") = some v12)
    (h13 : pyFloatOrZero (fields.getD 13 "") = some v13)
    (h14 : pyFloatOrZero (fields.getD 14 "") = some v14) :
    List.lookup "interval_ms" (parseCorr fields) = some (TValue.num v6)
    ∧ List.lookup "interval_error_ms" (parseCorr fields)
        = some (TValue.num |v6 - 1000|) := by
  have hp : parseCorr fields =
      [("time_str", TValue.str (fields.getD 0 "")), ("timestamp_ms", TValue.num v1),
       ("tick_num", TValue.int v2), ("expected", TValue.str (fields.getD 3 "")),
       ("energy_peak", TValue.num v4), ("duration_ms", TValue.num v5),
       ("interval_ms", TValue.num v6), ("avg_interval_ms", TValue.num v7),
       ("noise_floor", TValue.num v8), ("corr_peak", TValue.num v9),
       ("corr_ratio", TValue.num v10), ("chain_id", TValue.int v11),
       ("chain_length", TValue.int v12), ("chain_start_ms", TValue.num v13),
       ("cumulative_drift_ms", TValue.num v14),
       ("interval_error_ms", TValue.num |v6 - 1000|)] := by
    unfold parseCorr
    rw [if_pos hlen]
    simp only [h1, h2, h4, h5, h6, h7, h8, h9, h10, h11, h12, h13, h14,
      List.cons_append, List.nil_append]
  exact ⟨by rw [hp]; rfl, by rw [hp]; rfl⟩

/-- C7 witness: the well-formed CORR sample with interval 10000 satisfies the
amended theorem's hypotheses, and its `interval_error_ms` is 9000. -/
theorem c7_interval_error_witness :
    corrFarSample.length ≥ 15
    ∧ List.lookup "interval_ms" (parseCorr corrFarSample) = some (TValue.num 10000)
    ∧ List.lookup "interval_error_ms" (parseCorr corrFarSample) = some (TValue.num 9000) := by
  have hv : pyFloatOrZero (corrFarSample.getD 6 "") = some 10000 := by
    norm_num +decide [corrFarSample, pyFloatOrZero, pyFloatLit, splitChars, digitsToNat,
      show Char.toNat (Char.ofNat 49) = 49 from rfl]
  have h := c7_interval_error_amended corrFarSample 0 0 0 10000 0 0 0 0 0 0 0 0 0
    (by decide) rfl rfl rfl rfl hv rfl rfl rfl rfl rfl rfl rfl rfl
  refine ⟨by decide, h.1, ?_⟩
  rw [h.2]
  norm_num

/-- C9: `_parse_message` never lets a parse error escape: every exception
raised by the body (decode failure or a malformed field in a channel parser)
is turned into `None` - the datagram is silently dropped - and a returned
message can only come from a successful parse. -/
theorem c9_parse_errors_dropped (now : ℚ) (bytes : List ℕ) :
    (∀ e, parse_message_body now bytes = Except.error e → parse_message now bytes = none)
    ∧ (∀ m, parse_message now bytes = some m
        → parse_message_body now bytes = Except.ok (some m)) := by
  constructor
  · intro e he
    simp [parse_message, he]
  · intro m hm
    cases hb : parse_message_body now bytes with
    | ok r =>
      simp [parse_message, hb] at hm
      rw [hm]
    | error e =>
      simp [parse_message, hb] at hm

/-- C9 witness: the datagram `TICK,x,zz` raises `ValueError` inside the body
(its sample-offset field is not an integer) and is dropped as `None`; a
non-ASCII byte sequence fails decoding and is likewise dropped. -/
theorem c9_parse_errors_dropped_witness :
    parse_message 0 tickBadDatagram = none ∧ parse_message 0 [200] = none := by
  exact ⟨(c9_parse_errors_dropped 0 tickBadDatagram).1 "ValueError" rfl,
         (c9_parse_errors_dropped 0 [200]).1 "UnicodeDecodeError" rfl⟩

/-- C10: every mode string outside tick/corr/marker/sync - not only `all` -
falls into the final `else` branch of `get_param_names`, `get_bounds` and
`set_parameters_from_array`, behaving exactly as mode `all` with the
concatenated 22-parameter family. -/
theorem c10_unknown_mode_as_all (mode : String) (h1 : mode ≠ "tick") (h2 : mode ≠ "corr")
    (h3 : mode ≠ "marker") (h4 : mode ≠ "sync") :
    get_param_names mode = get_param_names "all"
    ∧ (get_param_names mode).length = 22
    ∧ get_bounds mode = get_bounds "all"
    ∧ ∀ (connected : Bool) (values : List ℚ),
        set_parameters_from_array connected values mode
          = set_parameters_from_array connected values "all" := by
  have hn : get_param_names mode = get_param_names "all" := by
    simp [get_param_names, h1, h2, h3, h4]
  refine ⟨hn, ?_, ?_, ?_⟩
  · rw [hn]; rfl
  · rw [get_bounds, get_bounds, hn]
  · intro c vs
    rw [set_parameters_from_array, set_parameters_from_array, hn]

/-- C10 witness: the unknown mode string `bogus` behaves as `all`. -/
theorem c10_unknown_mode_as_all_witness :
    get_param_names "bogus" = get_param_names "all"
    ∧ (get_param_names "bogus").length = 22 := by
  have h := c10_unknown_mode_as_all "bogus" (by decide) (by decide) (by decide) (by decide)
  exact ⟨h.1, h.2.1⟩

/-! ### Result Store lemmas (rounding and save/read behaviour) -/

theorem round_rat_mono {a b : ℚ} (h : a ≤ b) : round a ≤ round b := by
  rw [round_eq, round_eq]
  exact Int.floor_le_floor (by linarith)

theorem round6_mono {a b : ℚ} (h : a ≤ b) : round6 a ≤ round6 b := by
  unfold round6
  rw [div_le_div_iff_of_pos_right (by norm_num : (0 : ℚ) < 1000000)]
  exact_mod_cast round_rat_mono (mul_le_mul_of_nonneg_right h (by norm_num))

theorem round6_fixed_int (z : ℤ) : round6 ((z : ℚ) / 1000000) = (z : ℚ) / 1000000 := by
  unfold round6
  rw [div_mul_cancel₀ _ (by norm_num : (1000000 : ℚ) ≠ 0), round_intCast]

theorem round6_idem (q : ℚ) : round6 (round6 q) = round6 q :=
  round6_fixed_int (round (q * 1000000))

theorem round6_le_of_lt_fixed {s e : ℚ} (he : round6 e = e) (h : s < e) : round6 s ≤ e := by
  calc round6 s ≤ round6 e := round6_mono h.le
  _ = e := he

theorem write_ini_best_scores (r : Option IniRecord) (params : List ℚ) (names : List String)
    (mode : String) (score : ℚ) (now : String) :
    (write_ini r params names mode score now).best_scores
      = updateAssoc (r.getD emptyRecord).best_scores (mode ++ "_best_score") (round6 score) :=
  rfl

theorem get_existing_some_eq (rec : IniRecord) (mode : String) :
    get_existing_score (some rec) mode
      = (match List.lookup (mode ++ "_best_score") rec.best_scores with
         | some s => some s
         | none => if rec.last_mode = mode then some rec.last_score else none) :=
  rfl

theorem get_existing_score_write (r : Option IniRecord) (params : List ℚ)
    (names : List String) (mode : String) (score : ℚ) (now : String) :
    get_existing_score (some (write_ini r params names mode score now)) mode
      = some (round6 score) := by
  rw [get_existing_some_eq, write_ini_best_scores, lookup_updateAssoc_self]

theorem save_to_ini_of_none {r : Option IniRecord} {mode : String}
    (params : List ℚ) (names : List String) (score : ℚ) (now : String)
    (h : get_existing_score r mode = none) :
    save_to_ini r params names mode score now
      = some (write_ini r params names mode score now) := by
  unfold save_to_ini
  rw [h]

theorem save_to_ini_of_lt {r : Option IniRecord} {mode : String} {e : ℚ}
    (params : List ℚ) (names : List String) {score : ℚ} (now : String)
    (h : get_existing_score r mode = some e) (hlt : score < e) :
    save_to_ini r params names mode score now
      = some (write_ini r params names mode score now) := by
  unfold save_to_ini
  rw [h]
  show (if score < e then some (write_ini r params names mode score now) else r)
      = some (write_ini r params names mode score now)
  rw [if_pos hlt]

theorem save_to_ini_of_ge {r : Option IniRecord} {mode : String} {e : ℚ}
    (params : List ℚ) (names : List String) {score : ℚ} (now : String)
    (h : get_existing_score r mode = some e) (hge : ¬score < e) :
    save_to_ini r params names mode score now = r := by
  unfold save_to_ini
  rw [h]
  show (if score < e then some (write_ini r params names mode score now) else r) = r
  rw [if_neg hge]

theorem lookup_none_of_get_existing_none {rec : IniRecord} {mode : String}
    (h : get_existing_score (some rec) mode = none) :
    List.lookup (mode ++ "_best_score") rec.best_scores = none := by
  rw [get_existing_some_eq] at h
  cases hlk : List.lookup (mode ++ "_best_score") rec.best_scores with
  | none => rfl
  | some x =>
    rw [hlk] at h
    exact Option.noConfusion h

theorem get_existing_of_lookup_some {rec : IniRecord} {mode : String} {s : ℚ}
    (h : List.lookup (mode ++ "_best_score") rec.best_scores = some s) :
    get_existing_score (some rec) mode = some s := by
  rw [get_existing_some_eq, h]

theorem bestKeyLookup_some (rec : IniRecord) (k : String) :
    bestKeyLookup (some rec) k = List.lookup k rec.best_scores :=
  rfl

theorem rounded_applyCall {r : Option IniRecord} (c : CallArgs) (hr : RoundedBest r) :
    RoundedBest (applyCall r c) := by
  have hwrite : ∀ k s,
      bestKeyLookup (some (write_ini r c.params c.names c.mode c.score c.now)) k = some s
      → round6 s = s := by
    intro k s hl
    rw [bestKeyLookup_some, write_ini_best_scores] at hl
    rcases lookup_updateAssoc_cases _ _ _ _ _ hl with ⟨_, hs⟩ | hbase
    · rw [hs]
      exact round6_idem _
    · cases r with
      | none => simp [emptyRecord, List.lookup] at hbase
      | some rec => exact hr k s (by rw [bestKeyLookup_some]; exact hbase)
  unfold applyCall
  cases hge : get_existing_score r c.mode with
  | none =>
    rw [save_to_ini_of_none _ _ _ _ hge]
    exact hwrite
  | some e =>
    by_cases hlt : c.score < e
    · rw [save_to_ini_of_lt _ _ _ hge hlt]
      exact hwrite
    · rw [save_to_ini_of_ge _ _ _ hge hlt]
      exact hr

theorem bestKeyLookup_applyCall_le {r : Option IniRecord} (c : CallArgs) {k : String}
    {s1 : ℚ} (hr : RoundedBest r) (h : bestKeyLookup r k = some s1) :
    ∃ s2, bestKeyLookup (applyCall r c) k = some s2 ∧ s2 ≤ s1 := by
  cases r with
  | none => simp [bestKeyLookup] at h
  | some rec =>
    have hl : List.lookup k rec.best_scores = some s1 := by
      rw [bestKeyLookup_some] at h
      exact h
    unfold applyCall
    cases hge : get_existing_score (some rec) c.mode with
    | none =>
      rw [save_to_ini_of_none _ _ _ _ hge]
      have hkey : k ≠ c.mode ++ "_best_score" := by
        intro hk
        rw [hk, lookup_none_of_get_existing_none hge] at hl
        exact Option.noConfusion hl
      refine ⟨s1, ?_, le_refl s1⟩
      rw [bestKeyLookup_some, write_ini_best_scores, lookup_updateAssoc_ne _ _ _ _ hkey]
      exact hl
    | some e =>
      by_cases hlt : c.score < e
      · rw [save_to_ini_of_lt _ _ _ hge hlt]
        by_cases hkey : k = c.mode ++ "_best_score"
        · have hes : e = s1 := by
            rw [hkey] at hl
            have h2 := get_existing_of_lookup_some hl
            rw [h2] at hge
            exact (Option.some_inj.mp hge).symm
          refine ⟨round6 c.score, ?_, ?_⟩
          · rw [bestKeyLookup_some, write_ini_best_scores, hkey]
            exact lookup_updateAssoc_self _ _ _
          · have hfix : round6 s1 = s1 := hr k s1 h
            rw [hes] at hlt
            exact round6_le_of_lt_fixed hfix hlt
        · refine ⟨s1, ?_, le_refl s1⟩
          rw [bestKeyLookup_some, write_ini_best_scores, lookup_updateAssoc_ne _ _ _ _ hkey]
          exact hl
      · rw [save_to_ini_of_ge _ _ _ hge hlt]
        exact ⟨s1, h, le_refl s1⟩

theorem rounded_foldl (cs : List CallArgs) (r : Option IniRecord) (hr : RoundedBest r) :
    RoundedBest (cs.foldl applyCall r) := by
  induction cs generalizing r with
  | nil => exact hr
  | cons c t ih => exact ih (applyCall r c) (rounded_applyCall c hr)

theorem runCalls_rounded (cs : List CallArgs) : RoundedBest (runCalls cs) := by
  unfold runCalls
  apply rounded_foldl
  intro k s h
  simp [bestKeyLookup] at h

theorem bestKeyLookup_foldl_le (cs : List CallArgs) (r : Option IniRecord) (k : String)
    (s1 : ℚ) (hr : RoundedBest r) (h : bestKeyLookup r k = some s1) :
    ∃ s2, bestKeyLookup (cs.foldl applyCall r) k = some s2 ∧ s2 ≤ s1 := by
  induction cs generalizing r s1 with
  | nil => exact ⟨s1, h, le_refl s1⟩
  | cons c t ih =>
    obtain ⟨s2, h2, hle2⟩ := bestKeyLookup_applyCall_le c hr h
    obtain ⟨s3, h3, hle3⟩ := ih (applyCall r c) s2 (rounded_applyCall c hr) h2
    exact ⟨s3, h3, le_trans hle3 hle2⟩

/-- C5: for a fixed mode, the score stored under the mode's best-score key in
the all-time-best record is non-increasing across any sequence of
`save_to_ini` calls, regardless of the modes and scores of intermediate
calls: once `s1` is the stored best for mode `m`, every later state stores
some `s2 ≤ s1` for `m`. -/
theorem c5_best_score_monotone (cs1 cs2 : List CallArgs) (m : String) (s1 : ℚ)
    (h : storedBestScore (runCalls cs1) m = some s1) :
    ∃ s2, storedBestScore (runCalls (cs1 ++ cs2)) m = some s2 ∧ s2 ≤ s1 := by
  have hrw : runCalls (cs1 ++ cs2) = cs2.foldl applyCall (runCalls cs1) := by
    unfold runCalls
    rw [List.foldl_append]
  rw [hrw]
  exact bestKeyLookup_foldl_le cs2 (runCalls cs1) (m ++ "_best_score") s1
    (runCalls_rounded cs1) h

/-- C5 witness: after recording score 5 for mode tick, recording score 7 for
tick leaves some stored best ≤ 5. -/
theorem c5_best_score_monotone_witness :
    storedBestScore (runCalls [⟨[1], ["threshold"], "tick", 5, "t1"⟩]) "tick" = some 5
    ∧ ∃ s2, storedBestScore (runCalls ([⟨[1], ["threshold"], "tick", 5, "t1"⟩]
        ++ [⟨[1], ["threshold"], "tick", 7, "t2"⟩])) "tick" = some s2 ∧ s2 ≤ 5 := by
  have h5 : round6 5 = 5 := by
    unfold round6
    norm_num
  have h : storedBestScore (runCalls [⟨[1], ["threshold"], "tick", 5, "t1"⟩]) "tick"
      = some 5 := by
    rw [show storedBestScore (runCalls [⟨[1], ["threshold"], "tick", 5, "t1"⟩]) "tick"
        = List.lookup ("tick" ++ "_best_score")
            (write_ini none [1] ["threshold"] "tick" 5 "t1").best_scores from rfl]
    rw [write_ini_best_scores, lookup_updateAssoc_self, h5]
  exact ⟨h, c5_best_score_monotone _ _ "tick" 5 h⟩

/-- C6: two `save_to_ini` calls with identical parameters, names, mode and
score need not leave the all-time-best record byte-identical: the score
0.9999996 is stored as `1.000000`, reads back strictly greater than itself,
so the second call rewrites the record with a fresh `last_run` timestamp. -/
theorem c6_idempotence_counterexample :
    Option.map IniRecord.last_run c6rec1 = some "t1"
    ∧ Option.map IniRecord.last_run c6rec2 = some "t2"
    ∧ c6rec2 ≠ c6rec1 := by
  have hr6 : round6 roundUpScore = 1 := by
    unfold round6 roundUpScore
    have hm : (9999996 : ℚ)/10000000 * 1000000 = 9999996/10 := by norm_num
    rw [hm, round_eq]
    have ha : (9999996 : ℚ)/10 + 1/2 = 10000001/10 := by norm_num
    rw [ha]
    have hf : ⌊(10000001 : ℚ)/10⌋ = 1000000 := by
      rw [Int.floor_eq_iff]
      constructor <;> norm_num
    rw [hf]
    norm_num
  have h1 : c6rec1 = some (write_ini none [1] ["threshold"] "tick" roundUpScore "t1") := by
    unfold c6rec1
    exact save_to_ini_of_none _ _ _ _ rfl
  have hge : get_existing_score c6rec1 "tick" = some (round6 roundUpScore) := by
    rw [h1]
    exact get_existing_score_write _ _ _ _ _ _
  have hlt : roundUpScore < round6 roundUpScore := by
    rw [hr6]
    unfold roundUpScore
    norm_num
  have h2 : c6rec2 = some (write_ini c6rec1 [1] ["threshold"] "tick" roundUpScore "t2") := by
    unfold c6rec2
    exact save_to_ini_of_lt _ _ _ hge hlt
  refine ⟨by rw [h1]; rfl, by rw [h2]; rfl, ?_⟩
  rw [h1, h2]
  intro heq
  have hrun : (write_ini c6rec1 [1] ["threshold"] "tick" roundUpScore "t2").last_run
      = (write_ini none [1] ["threshold"] "tick" roundUpScore "t1").last_run := by
    rw [Option.some_inj.mp heq]
  rw [show (write_ini c6rec1 [1] ["threshold"] "tick" roundUpScore "t2").last_run
        = "t2" from rfl,
      show (write_ini none [1] ["threshold"] "tick" roundUpScore "t1").last_run
        = "t1" from rfl] at hrun
  exact absurd hrun (by decide)

/-- C6 amended: `save_to_ini` is idempotent on the all-time-best record
whenever the score does not strictly round *up* at the sixth decimal place
(`round6 score ≤ score`, which holds in particular for every score that is an
exact multiple of 10⁻⁶): the second identical call then skips the write
entirely, leaving the file byte-identical.  (A score that rounds up, such as
0.9999996, triggers a rewrite whose `last_run` timestamp may differ.) -/
theorem c6_save_idempotent_amended (r : Option IniRecord) (params : List ℚ)
    (names : List String) (mode : String) (score : ℚ) (now1 now2 : String)
    (h : round6 score ≤ score) :
    save_to_ini (save_to_ini r params names mode score now1) params names mode score now2
      = save_to_ini r params names mode score now1 := by
  have hnlt : ¬score < round6 score := not_lt.mpr h
  cases hge : get_existing_score r mode with
  | none =>
    rw [save_to_ini_of_none params names score now1 hge]
    exact save_to_ini_of_ge _ _ _ (get_existing_score_write _ _ _ _ _ _) hnlt
  | some e =>
    by_cases hlt : score < e
    · rw [save_to_ini_of_lt params names now1 hge hlt]
      exact save_to_ini_of_ge _ _ _ (get_existing_score_write _ _ _ _ _ _) hnlt
    · rw [save_to_ini_of_ge params names now1 hge hlt]
      exact save_to_ini_of_ge _ _ _ hge hlt

/-- C6 witness: with the exactly-representable score 5, a second identical
call leaves the record unchanged. -/
theorem c6_save_idempotent_amended_witness :
    round6 5 ≤ 5
    ∧ save_to_ini (save_to_ini none [1] ["threshold"] "tick" 5 "a")
        [1] ["threshold"] "tick" 5 "b"
      = save_to_ini none [1] ["threshold"] "tick" 5 "a" := by
  have h5 : round6 (5 : ℚ) = 5 := by
    unfold round6
    norm_num
  exact ⟨le_of_eq h5,
    c6_save_idempotent_amended none [1] ["threshold"] "tick" 5 "a" "b" (le_of_eq h5)⟩
